import Mathlib

/-!
Shallow embedding of the mock Google-Analytics report generator from
`netlify/functions/index.ts` (`generateRealisticData` and its local helper
`getValue`), together with theorems checking the specification's claims.

Modelling conventions:
* JavaScript numbers are modelled as rationals (`ℚ`); `Math.round` is
  Mathlib's `round` (both send `x` to `⌊x + 1/2⌋`).
* A dataset row is an association list from column names to values, in the
  object's key-insertion order (the order `Object.keys` iterates).
* The static dataset file `netlify/assets/ga4_pages_and_screens.json` is not
  part of the sources; the parsed dataset is passed to the generator as an
  explicit argument.
* The two `Math.random()` call sites are modelled by explicit streams
  `randPage randChan : ℕ → ℚ` of draws, consumed in call order (two draws per
  page entry, two per channel entry); a draw is assumed to lie in `[0, 1)`.
* The division `100 * (keyEvents / sessions)` is unguarded in the source and
  produces a non-finite double when `sessions = 0`; the embedding returns an
  `Option ℚ`, `none` standing for that non-finite value.
-/

namespace GaMock

/-- A JSON value stored in a dataset row: a number or a string.
(The fixture's columns hold numbers for metrics and strings for paths.) -/
inductive JsVal where
  | num (q : ℚ)
  | str (s : String)
  deriving DecidableEq

/-- A dataset row: column names paired with values, in key-insertion order. -/
abbrev Row := List (String × JsVal)

/-- JavaScript truthiness of a value: `0` and `""` are falsy.
(`NaN` does not arise in the rational model.) -/
def jsTruthy : JsVal → Bool
  | .num q => q != 0
  | .str s => s != ""

/-- JavaScript `a || b` on values: `a` if truthy, else `b`. -/
def jsOr (a b : JsVal) : JsVal := if jsTruthy a then a else b

/-- JavaScript `s.trim()` on a character list: whitespace stripped from both ends. -/
def trimChars (l : List Char) : List Char :=
  ((l.dropWhile Char.isWhitespace).reverse.dropWhile Char.isWhitespace).reverse

/-- The normalisation `s.toLowerCase().trim()` applied to both the target
key and each column name in `getValue`, computed on the character list. -/
def normKey (s : String) : List Char := trimChars (s.toList.map Char.toLower)

/-- Whether column name `k` matches target `key`:
`k.toLowerCase().trim().includes(key.toLowerCase().trim())`, i.e. the
normalised target is a contiguous substring of the normalised column name. -/
def keyMatches (k key : String) : Bool :=
  decide (normKey key <:+: normKey k)

/-- Function `getValue(row, key)` from index.ts lines 109–115: the value of the first
column (in key order) whose normalised name contains the normalised key;
`0` when no column matches. -/
def getValue (row : Row) (key : String) : JsVal :=
  match row.find? (fun kv => keyMatches kv.1 key) with
  | some kv => kv.2
  | none => .num 0

/-- Reading `getValue` in a numeric context (`getValue(row, k) || 0`, and the bare
multiplication `getValue(row, "Views") * dateAdjustmentFactor`): the numeric
value of the matched column, `0` when no column matches. A string value is
mapped to `0`; theorems quantifying over datasets therefore only assume
non-negativity of `getNum`, which holds vacuously for string cells. -/
def getNum (row : Row) (key : String) : ℚ :=
  match getValue row key with
  | .num q => q
  | .str _ => 0

/-- A calendar date, as parsed from a `"YYYY-MM-DD"` string. -/
structure Ymd where
  year : ℤ
  month : ℤ
  day : ℤ
  deriving DecidableEq

/-- Days from 1970-01-01 to the given civil date (the number a JavaScript
`Date` built from a date-only ISO string stores, divided by 86 400 000 ms).
Standard civil-from-days algorithm. -/
def daysFromCivil (dt : Ymd) : ℤ :=
  let y := if dt.month ≤ 2 then dt.year - 1 else dt.year
  let era := (if 0 ≤ y then y else y - 399) / 400
  let yoe := y - era * 400
  let mp := (dt.month + 9) % 12
  let doy := (153 * mp + 2) / 5 + dt.day - 1
  let doe := yoe * 365 + yoe / 4 - yoe / 100 + doy
  era * 146097 + doe - 719468

/-- JavaScript `new Date("YYYY-MM-DD").getTime()`: milliseconds since the epoch at UTC
midnight of the date. -/
def epochMs (dt : Ymd) : ℤ := 86400000 * daysFromCivil dt

/-- Request parameters of the `ga_data` tool. Date strings are modelled in
parsed form; a field that is absent is `none`. -/
structure GaDataParams where
  start_date : Option Ymd
  end_date : Option Ymd
  comparison_start_date : Option Ymd
  comparison_end_date : Option Ymd
  traffic_source_type : Option String

/-- index.ts lines 117–123: `|end − start| in ms / 86 400 000 / 30` when both
primary dates are present, else `1.0`. (In the source an empty date string is
falsy and also takes the default branch; the `Option` model subsumes it.) -/
def dateAdjustmentFactor (params : GaDataParams) : ℚ :=
  match params.start_date, params.end_date with
  | some s, some e => (|((epochMs e : ℚ) - (epochMs s : ℚ))| / (1000 * 60 * 60 * 24)) / 30
  | _, _ => 1

/-- index.ts lines 126–132: `0.85 + span/100` when both comparison dates are
present, else `0.9`. -/
def comparisonAdjustmentFactor (params : GaDataParams) : ℚ :=
  match params.comparison_start_date, params.comparison_end_date with
  | some s, some e => 0.85 + (|((epochMs e : ℚ) - (epochMs s : ℚ))| / (1000 * 60 * 60 * 24)) / 100
  | _, _ => 0.9

/-- The expression `100 * (keyEvents / sessions)`, the unguarded division of index.ts lines
147 and 186. `none` models the non-finite double (NaN or ±Infinity) that
JavaScript produces when `sessions` is `0`. -/
def jsDivRate (keyEvents sessions : ℤ) : Option ℚ :=
  if sessions = 0 then none else some (100 * ((keyEvents : ℚ) / (sessions : ℚ)))

/-- The aggregate totals that the traffic-source filter branch (index.ts lines
178–188) may overwrite; bundled so the mutable reassignment can be modelled
functionally. `engagementRate` and `prevEngagementRate` are `const` in the
source and are deliberately not part of this bundle. -/
structure Aggregates where
  sessions : ℤ
  users : ℤ
  keyEvents : ℤ
  prevSessions : ℤ
  prevUsers : ℤ
  prevKeyEvents : ℤ
  sessionKeyEventRate : Option ℚ
  prevSessionKeyEventRate : Option ℚ
  deriving DecidableEq

/-- One entry of the per-page breakdown. -/
structure PageEntry where
  path : JsVal
  sessions : ℤ
  prevSessions : ℤ
  keyEventRate : ℚ
  prevKeyEventRate : ℚ
  deriving DecidableEq

/-- One entry of the per-channel breakdown. -/
structure ChannelEntry where
  name : String
  sessions : ℤ
  prevSessions : ℤ
  keyEventRate : ℚ
  prevKeyEventRate : ℚ
  deriving DecidableEq

/-- The report returned by `generateRealisticData`. -/
structure ReportData where
  sessions : ℤ
  prevSessions : ℤ
  users : ℤ
  prevUsers : ℤ
  engagementRate : ℚ
  prevEngagementRate : ℚ
  keyEvents : ℤ
  prevKeyEvents : ℤ
  sessionKeyEventRate : Option ℚ
  prevSessionKeyEventRate : Option ℚ
  pages : List PageEntry
  channels : List ChannelEntry
  deriving DecidableEq

/-- An internal channel record before filtering (index.ts lines 167–172). -/
structure ChannelData where
  name : String
  sessions : ℤ
  type : String
  deriving DecidableEq

/-- index.ts lines 167–172: the fixed four-way split of total sessions. -/
def baseChannels (sessions : ℤ) : List ChannelData :=
  [ { name := "Organic Search", sessions := round ((sessions : ℚ) * 0.4), type := "organic" },
    { name := "Direct", sessions := round ((sessions : ℚ) * 0.25), type := "direct" },
    { name := "Referral", sessions := round ((sessions : ℚ) * 0.2), type := "referral" },
    { name := "Social", sessions := round ((sessions : ℚ) * 0.15), type := "social" } ]

/-- The unfiltered aggregates, index.ts lines 134–148 (minus the two
engagement-rate fields, which are not overwritten later). -/
def baseAggregates (ga4Data : List Row) (params : GaDataParams) : Aggregates :=
  let dateFactor := dateAdjustmentFactor params
  let compFactor := comparisonAdjustmentFactor params
  let sessions : ℤ := round ((ga4Data.map (fun row => getNum row "Views")).sum * dateFactor)
  let users : ℤ := round ((ga4Data.map (fun row => getNum row "Users")).sum * dateFactor)
  let keyEvents : ℤ := round ((sessions : ℚ) * 0.05)
  let sessionKeyEventRate := jsDivRate keyEvents sessions
  { sessions := sessions
    users := users
    keyEvents := keyEvents
    prevSessions := round ((sessions : ℚ) * compFactor)
    prevUsers := round ((users : ℚ) * (compFactor + 0.02))
    prevKeyEvents := round ((keyEvents : ℚ) * compFactor)
    sessionKeyEventRate := sessionKeyEventRate
    prevSessionKeyEventRate := sessionKeyEventRate.map (fun r => r - 0.5) }

/-- index.ts lines 179–187: the aggregates recomputed from the filtered
channel's sessions when the traffic-source filter matched. -/
def recomputeAggregates (filteredSessions : ℤ) (compFactor : ℚ) : Aggregates :=
  let sessions := filteredSessions
  let users : ℤ := round ((sessions : ℚ) * 0.7)
  let keyEvents : ℤ := round ((sessions : ℚ) * 0.05)
  let sessionKeyEventRate := jsDivRate keyEvents sessions
  { sessions := sessions
    users := users
    keyEvents := keyEvents
    prevSessions := round ((sessions : ℚ) * compFactor)
    prevUsers := round ((users : ℚ) * (compFactor + 0.02))
    prevKeyEvents := round ((keyEvents : ℚ) * compFactor)
    sessionKeyEventRate := sessionKeyEventRate
    prevSessionKeyEventRate := sessionKeyEventRate.map (fun r => r - 0.5) }

/-- The comparator of index.ts line 151, `(b, a) ↦ views(b) − views(a)`, as
the ordering "a may stay before b": the comparator is non-positive exactly
when `views(b) ≤ views(a)`. `Array.prototype.sort` is stable (ES2019), and
`List.mergeSort` is the corresponding stable sort. -/
def sortRows (ga4Data : List Row) : List Row :=
  ga4Data.mergeSort (fun a b => decide (getNum b "Views" ≤ getNum a "Views"))

/-- index.ts lines 152–165: one page entry, built from the `i`-th row of the
sorted dataset; the two `Math.random() * 20` draws are `randPage (2i)` and
`randPage (2i+1)`. -/
def mkPageEntry (dateFactor compFactor : ℚ) (randPage : ℕ → ℚ) (i : ℕ) (row : Row) :
    PageEntry :=
  let pageViews : ℤ := round (getNum row "Views" * dateFactor)
  { path := jsOr (getValue row "Paths")
      (jsOr (getValue row "Page path and screen class")
        (jsOr (getValue row "Landing page + query string") (.str "/unknown")))
    sessions := pageViews
    prevSessions := round ((pageViews : ℚ) * compFactor)
    keyEventRate := randPage (2 * i) * 20
    prevKeyEventRate := randPage (2 * i + 1) * 20 }

/-- Whether the `if (params?.traffic_source_type)` guard of index.ts line 174
fires: the field is present and non-empty (an empty string is falsy). -/
def filterActive (params : GaDataParams) : Bool :=
  match params.traffic_source_type with
  | some t => t != ""
  | none => false

/-- JavaScript `t.toLowerCase()` computed characterwise. -/
def jsToLower (s : String) : String := String.mk (s.toList.map Char.toLower)

/-- index.ts lines 174–176: the channel list after the optional
traffic-source filter (`c.type === filterType`, with the lower-cased
parameter). -/
def filteredChannels (params : GaDataParams) (cs : List ChannelData) : List ChannelData :=
  match params.traffic_source_type with
  | some t => if t != "" then cs.filter (fun c => c.type == jsToLower t) else cs
  | none => cs

/-- Function `generateRealisticData` from index.ts lines 104–213, with the parsed
dataset and the two random streams passed explicitly. -/
def generateRealisticData (ga4Data : List Row) (params : GaDataParams)
    (randPage randChan : ℕ → ℚ) : ReportData :=
  let dateFactor := dateAdjustmentFactor params
  let compFactor := comparisonAdjustmentFactor params
  let base := baseAggregates ga4Data params
  let engagementRate : ℚ :=
    100 * (if base.users = 0 then 0 else (base.sessions : ℚ) / (base.users : ℚ))
  let prevEngagementRate : ℚ := max (engagementRate - 2.5) 0
  let pages := (sortRows ga4Data).enum.map
    (fun p => mkPageEntry dateFactor compFactor randPage p.1 p.2)
  let channelsData := filteredChannels params (baseChannels base.sessions)
  let aggs : Aggregates :=
    if filterActive params then
      match channelsData.head? with
      | some c => recomputeAggregates c.sessions compFactor
      | none => base
    else base
  let channels := channelsData.enum.map (fun p =>
    { name := p.2.name
      sessions := p.2.sessions
      prevSessions := round ((p.2.sessions : ℚ) * compFactor)
      keyEventRate := randChan (2 * p.1) * 15 + 5
      prevKeyEventRate := randChan (2 * p.1 + 1) * 15 + 5 : ChannelEntry })
  { sessions := aggs.sessions
    prevSessions := aggs.prevSessions
    users := aggs.users
    prevUsers := aggs.prevUsers
    engagementRate := engagementRate
    prevEngagementRate := prevEngagementRate
    keyEvents := aggs.keyEvents
    prevKeyEvents := aggs.prevKeyEvents
    sessionKeyEventRate := aggs.sessionKeyEventRate
    prevSessionKeyEventRate := aggs.prevSessionKeyEventRate
    pages := pages
    channels := channels }

/-- The one-row dataset `{Views: 100, Users: 50, Paths: "/home"}` of the
spec's scenario. -/
def oneRowData : List Row :=
  [[("Views", .num 100), ("Users", .num 50), ("Paths", .str "/home")]]

/-- A request with no parameters set. -/
def emptyParams : GaDataParams :=
  { start_date := none
    end_date := none
    comparison_start_date := none
    comparison_end_date := none
    traffic_source_type := none }

/-- A request that only filters on the `"referral"` traffic source. -/
def referralParams : GaDataParams :=
  { start_date := none
    end_date := none
    comparison_start_date := none
    comparison_end_date := none
    traffic_source_type := some "referral" }

/-! ## Helper lemmas -/

lemma round_eval {q : ℚ} {n : ℤ} (h1 : (n : ℚ) ≤ q + 1/2) (h2 : q + 1/2 < n + 1) :
    round q = n := by
  rw [round_eq]; exact Int.floor_eq_iff.mpr ⟨h1, h2⟩

lemma round_nonneg_q {q : ℚ} (h : 0 ≤ q) : 0 ≤ round q := by
  rw [round_eq]
  exact Int.le_floor.mpr (by push_cast; linarith)

/-- Rounding a fraction `c ∈ [0, 1]` of a non-negative integer total never
exceeds the total. -/
lemma round_frac_le {s : ℤ} (hs : 0 ≤ s) {c : ℚ} (hc1 : c ≤ 1) :
    round ((s : ℚ) * c) ≤ s := by
  rw [round_eq]
  rw [Int.floor_le_iff]
  have hsq : (0 : ℚ) ≤ (s : ℚ) := by exact_mod_cast hs
  have hcs : (s : ℚ) * c ≤ (s : ℚ) := by nlinarith
  linarith

lemma compFactor_ge (p : GaDataParams) : 0.85 ≤ comparisonAdjustmentFactor p := by
  unfold comparisonAdjustmentFactor
  rcases p.comparison_start_date with _ | s <;> rcases p.comparison_end_date with _ | e <;>
    norm_num
  have h := abs_nonneg ((epochMs e : ℚ) - (epochMs s : ℚ))
  linarith

lemma dateFactor_nonneg (p : GaDataParams) : 0 ≤ dateAdjustmentFactor p := by
  unfold dateAdjustmentFactor
  rcases p.start_date with _ | s <;> rcases p.end_date with _ | e <;> norm_num
  have h := abs_nonneg ((epochMs e : ℚ) - (epochMs s : ℚ))
  positivity

lemma getNum_oneRow_Views :
    getNum [("Views", JsVal.num 100), ("Users", JsVal.num 50), ("Paths", JsVal.str "/home")]
      "Views" = 100 := by
  decide

lemma getNum_oneRow_Users :
    getNum [("Views", JsVal.num 100), ("Users", JsVal.num 50), ("Paths", JsVal.str "/home")]
      "Users" = 50 := by
  decide

lemma getValue_oneRow_Paths :
    getValue [("Views", JsVal.num 100), ("Users", JsVal.num 50), ("Paths", JsVal.str "/home")]
      "Paths" = .str "/home" := by
  decide

/-- The four rounded channel shares differ from the total by at most 2. -/
lemma channel_sum_close (s : ℤ) :
    |((round ((s : ℚ) * 0.4) + round ((s : ℚ) * 0.25)
        + round ((s : ℚ) * 0.2) + round ((s : ℚ) * 0.15) : ℤ) : ℚ) - (s : ℚ)| ≤ 2 := by
  have h1 := abs_sub_round ((s : ℚ) * 0.4)
  have h2 := abs_sub_round ((s : ℚ) * 0.25)
  have h3 := abs_sub_round ((s : ℚ) * 0.2)
  have h4 := abs_sub_round ((s : ℚ) * 0.15)
  rw [abs_le] at h1 h2 h3 h4 ⊢
  push_cast
  constructor <;> linarith [h1.1, h1.2, h2.1, h2.2, h3.1, h3.2, h4.1, h4.2]

/-! ## Claims -/

/-- C1: on the one-row dataset `{Views: 100, Users: 50, Paths: "/home"}` with
no request parameters, the generator returns `sessions = 100`, `users = 50`,
`engagementRate = 200`, `keyEvents = 5`, and a single page entry with path
`"/home"` and 100 sessions — whatever the random draws are. -/
theorem claim_C1 (rp rc : ℕ → ℚ) :
    (generateRealisticData oneRowData emptyParams rp rc).sessions = 100 ∧
    (generateRealisticData oneRowData emptyParams rp rc).users = 50 ∧
    (generateRealisticData oneRowData emptyParams rp rc).engagementRate = 200 ∧
    (generateRealisticData oneRowData emptyParams rp rc).keyEvents = 5 ∧
    (generateRealisticData oneRowData emptyParams rp rc).pages.map
      (fun p => (p.path, p.sessions)) = [(JsVal.str "/home", 100)] := by
  have h100 : round ((100 : ℚ) * 1) = 100 := round_eval (by norm_num) (by norm_num)
  have h50 : round ((50 : ℚ) * 1) = 50 := round_eval (by norm_num) (by norm_num)
  simp [generateRealisticData, baseAggregates, dateAdjustmentFactor, comparisonAdjustmentFactor,
    emptyParams, oneRowData, filterActive, filteredChannels, sortRows, mkPageEntry,
    getNum_oneRow_Views, getNum_oneRow_Users, getValue_oneRow_Paths, jsOr, jsTruthy, jsDivRate]
  refine ⟨by norm_num, ?_⟩
  have h5 : (100 : ℚ) * 0.05 = 5 := by norm_num
  rw [h5]
  exact round_eval (by norm_num) (by norm_num)

/-- C5: when both primary dates are present the date adjustment factor is the
absolute span between them in (civil) days divided by 30; when either is
absent the factor is 1. -/
theorem claim_C5 (p : GaDataParams) :
    (∀ s e, p.start_date = some s → p.end_date = some e →
      dateAdjustmentFactor p = |(daysFromCivil e : ℚ) - (daysFromCivil s : ℚ)| / 30) ∧
    ((p.start_date = none ∨ p.end_date = none) → dateAdjustmentFactor p = 1) := by
  constructor
  · intro s e hs he
    simp only [dateAdjustmentFactor, hs, he, epochMs]
    push_cast
    rw [show (86400000 : ℚ) * (daysFromCivil e : ℚ) - 86400000 * (daysFromCivil s : ℚ)
        = 86400000 * ((daysFromCivil e : ℚ) - (daysFromCivil s : ℚ)) by ring]
    rw [abs_mul]
    rw [show |(86400000 : ℚ)| = 86400000 by norm_num]
    ring
  · intro h
    rcases h with h | h
    · simp [dateAdjustmentFactor, h]
    · cases hs : p.start_date <;> simp [dateAdjustmentFactor, h, hs]

/-- C5 witness: a 2024-01-01 → 2024-01-31 range spans 30 days and gives
factor 1, and the factor is 1 when no dates are supplied. -/
theorem claim_C5_witness :
    dateAdjustmentFactor
      { start_date := some ⟨2024, 1, 1⟩, end_date := some ⟨2024, 1, 31⟩,
        comparison_start_date := none, comparison_end_date := none,
        traffic_source_type := none } = 1 ∧
    dateAdjustmentFactor emptyParams = 1 := by
  constructor
  · rw [(claim_C5 _).1 ⟨2024, 1, 1⟩ ⟨2024, 1, 31⟩ rfl rfl]
    have h1 : daysFromCivil ⟨2024, 1, 1⟩ = 19723 := by decide
    have h2 : daysFromCivil ⟨2024, 1, 31⟩ = 19753 := by decide
    rw [h1, h2]
    norm_num
  · exact (claim_C5 _).2 (Or.inl rfl)

/-- C6: `getValue` returns the value of the first column (in key order) whose
normalised name contains the normalised target key as a substring, and the
number 0 when no column name matches. -/
theorem claim_C6 (row : Row) (key : String) :
    ((∀ kv ∈ row, keyMatches kv.1 key = false) → getValue row key = .num 0) ∧
    (∀ pre k v post, row = pre ++ (k, v) :: post →
      (∀ kv ∈ pre, keyMatches kv.1 key = false) → keyMatches k key = true →
      getValue row key = v) := by
  constructor
  · intro h
    have hf : row.find? (fun kv => keyMatches kv.1 key) = none :=
      List.find?_eq_none.mpr (by intro x hx; simp [h x hx])
    simp [getValue, hf]
  · intro pre k v post hrow hpre hk
    subst hrow
    have h1 : pre.find? (fun kv => keyMatches kv.1 key) = none :=
      List.find?_eq_none.mpr (by intro x hx; simp [hpre x hx])
    simp [getValue, List.find?_append, h1, hk]

/-- C6 witness: on `[("Other", 7), ("My Views ", 9)]` the key `"views"`
matches the second column by normalised-substring lookup and yields 9; with no
matching column the lookup yields 0. -/
theorem claim_C6_witness :
    getValue [("Other", JsVal.num 7), ("My Views ", JsVal.num 9)] "views" = JsVal.num 9 ∧
    getValue [("Other", JsVal.num 7)] "views" = JsVal.num 0 := by
  constructor
  · exact (claim_C6 _ "views").2 [("Other", JsVal.num 7)] "My Views " (JsVal.num 9) []
      rfl (by decide) (by decide)
  · exact (claim_C6 _ "views").1 (by decide)

/-- C9: division by zero is guarded only for the engagement rate: when the
aggregate `users` from which it is computed is 0 the engagement rate is 0,
while a report whose `sessions` is 0 carries a non-finite (`none`)
session-key-event rate from the unguarded division. -/
theorem claim_C9 (ds : List Row) (p : GaDataParams) (rp rc : ℕ → ℚ) :
    ((baseAggregates ds p).users = 0 →
      (generateRealisticData ds p rp rc).engagementRate = 0) ∧
    ((generateRealisticData ds p rp rc).sessions = 0 →
      (generateRealisticData ds p rp rc).sessionKeyEventRate = none) := by
  constructor
  · intro h
    simp [generateRealisticData, h]
  · cases hF : filterActive p with
    | false =>
      simp only [generateRealisticData, hF, Bool.false_eq_true, if_false]
      intro h
      simp only [baseAggregates, jsDivRate] at h ⊢
      simp [h]
    | true =>
      cases hH : (filteredChannels p (baseChannels (baseAggregates ds p).sessions)).head? with
      | none =>
        simp only [generateRealisticData, hF, if_true, hH]
        intro h
        simp only [baseAggregates, jsDivRate] at h ⊢
        simp [h]
      | some c =>
        simp only [generateRealisticData, hF, if_true, hH]
        intro h
        simp only [recomputeAggregates, jsDivRate] at h ⊢
        simp [h]

/-- C9 witness: on the empty dataset both guards are exercised: users is 0 and
the engagement rate is 0; sessions is 0 and the session-key-event rate is the
non-finite marker. -/
theorem claim_C9_witness :
    (generateRealisticData [] emptyParams (fun _ => 0) (fun _ => 0)).engagementRate = 0 ∧
    (generateRealisticData [] emptyParams (fun _ => 0) (fun _ => 0)).sessionKeyEventRate
      = none := by
  have hu : (baseAggregates [] emptyParams).users = 0 := by
    simp [baseAggregates, dateAdjustmentFactor, comparisonAdjustmentFactor, emptyParams]
  have hs : (generateRealisticData [] emptyParams (fun _ => 0) (fun _ => 0)).sessions = 0 := by
    simp [generateRealisticData, baseAggregates, dateAdjustmentFactor,
      comparisonAdjustmentFactor, emptyParams, filterActive]
  exact ⟨(claim_C9 [] emptyParams _ _).1 hu, (claim_C9 [] emptyParams _ _).2 hs⟩

/-- When the traffic-source filter is active and leaves exactly one channel
record, the report's channel list is that single entry and every aggregate of
index.ts lines 179–187 is recomputed from its session count. -/
lemma generate_filtered_eqs (ds : List Row) (p : GaDataParams) (rp rc : ℕ → ℚ)
    (c : ChannelData) (hF : filterActive p = true)
    (hH : filteredChannels p (baseChannels (baseAggregates ds p).sessions) = [c]) :
    (generateRealisticData ds p rp rc).channels
      = [{ name := c.name, sessions := c.sessions,
           prevSessions := round ((c.sessions : ℚ) * comparisonAdjustmentFactor p),
           keyEventRate := rc 0 * 15 + 5, prevKeyEventRate := rc 1 * 15 + 5 }] ∧
    (generateRealisticData ds p rp rc).sessions = c.sessions ∧
    (generateRealisticData ds p rp rc).users = round ((c.sessions : ℚ) * 0.7) ∧
    (generateRealisticData ds p rp rc).keyEvents = round ((c.sessions : ℚ) * 0.05) ∧
    (generateRealisticData ds p rp rc).prevSessions
      = round ((c.sessions : ℚ) * comparisonAdjustmentFactor p) ∧
    (generateRealisticData ds p rp rc).prevUsers
      = round (((generateRealisticData ds p rp rc).users : ℚ)
          * (comparisonAdjustmentFactor p + 0.02)) ∧
    (generateRealisticData ds p rp rc).prevKeyEvents
      = round (((generateRealisticData ds p rp rc).keyEvents : ℚ)
          * comparisonAdjustmentFactor p) ∧
    (generateRealisticData ds p rp rc).sessionKeyEventRate
      = jsDivRate (generateRealisticData ds p rp rc).keyEvents
          (generateRealisticData ds p rp rc).sessions ∧
    (generateRealisticData ds p rp rc).prevSessionKeyEventRate
      = ((generateRealisticData ds p rp rc).sessionKeyEventRate).map
          (fun x => x - 0.5) := by
  refine ⟨?_, ?_, ?_, ?_, ?_, ?_, ?_, ?_, ?_⟩ <;>
    simp [generateRealisticData, hF, hH, recomputeAggregates, List.enum, List.enumFrom]

/-- C3: a supplied traffic-source type matching one of the four channel types
(case-insensitively) leaves exactly one channel entry, and the aggregates are
recomputed from that channel's sessions as the new total. -/
theorem claim_C3 (ds : List Row) (p : GaDataParams) (rp rc : ℕ → ℚ) (t : String)
    (ht : p.traffic_source_type = some t)
    (hmem : jsToLower t ∈ (["organic", "direct", "referral", "social"] : List String)) :
    ∃ ce : ChannelEntry,
      (generateRealisticData ds p rp rc).channels = [ce] ∧
      (generateRealisticData ds p rp rc).sessions = ce.sessions ∧
      (generateRealisticData ds p rp rc).users = round ((ce.sessions : ℚ) * 0.7) ∧
      (generateRealisticData ds p rp rc).keyEvents = round ((ce.sessions : ℚ) * 0.05) ∧
      (generateRealisticData ds p rp rc).prevSessions
        = round ((ce.sessions : ℚ) * comparisonAdjustmentFactor p) ∧
      (generateRealisticData ds p rp rc).prevUsers
        = round (((generateRealisticData ds p rp rc).users : ℚ)
            * (comparisonAdjustmentFactor p + 0.02)) ∧
      (generateRealisticData ds p rp rc).prevKeyEvents
        = round (((generateRealisticData ds p rp rc).keyEvents : ℚ)
            * comparisonAdjustmentFactor p) ∧
      (generateRealisticData ds p rp rc).sessionKeyEventRate
        = jsDivRate (generateRealisticData ds p rp rc).keyEvents
            (generateRealisticData ds p rp rc).sessions ∧
      (generateRealisticData ds p rp rc).prevSessionKeyEventRate
        = ((generateRealisticData ds p rp rc).sessionKeyEventRate).map
            (fun x => x - 0.5) := by
  have hne : t ≠ "" := by
    rintro rfl
    exact absurd hmem (by decide)
  have hF : filterActive p = true := by simp [filterActive, ht, hne]
  simp only [List.mem_cons, List.not_mem_nil, or_false] at hmem
  rcases hmem with h | h | h | h
  · have hH : filteredChannels p (baseChannels (baseAggregates ds p).sessions)
        = [{ name := "Organic Search",
             sessions := round (((baseAggregates ds p).sessions : ℚ) * 0.4),
             type := "organic" }] := by
      simp [filteredChannels, ht, hne, baseChannels, List.filter, h]
    obtain ⟨h1, h2, h3, h4, h5, h6, h7, h8, h9⟩ := generate_filtered_eqs ds p rp rc _ hF hH
    exact ⟨_, h1, h2, h3, h4, h5, h6, h7, h8, h9⟩
  · have hH : filteredChannels p (baseChannels (baseAggregates ds p).sessions)
        = [{ name := "Direct",
             sessions := round (((baseAggregates ds p).sessions : ℚ) * 0.25),
             type := "direct" }] := by
      simp [filteredChannels, ht, hne, baseChannels, List.filter, h]
    obtain ⟨h1, h2, h3, h4, h5, h6, h7, h8, h9⟩ := generate_filtered_eqs ds p rp rc _ hF hH
    exact ⟨_, h1, h2, h3, h4, h5, h6, h7, h8, h9⟩
  · have hH : filteredChannels p (baseChannels (baseAggregates ds p).sessions)
        = [{ name := "Referral",
             sessions := round (((baseAggregates ds p).sessions : ℚ) * 0.2),
             type := "referral" }] := by
      simp [filteredChannels, ht, hne, baseChannels, List.filter, h]
    obtain ⟨h1, h2, h3, h4, h5, h6, h7, h8, h9⟩ := generate_filtered_eqs ds p rp rc _ hF hH
    exact ⟨_, h1, h2, h3, h4, h5, h6, h7, h8, h9⟩
  · have hH : filteredChannels p (baseChannels (baseAggregates ds p).sessions)
        = [{ name := "Social",
             sessions := round (((baseAggregates ds p).sessions : ℚ) * 0.15),
             type := "social" }] := by
      simp [filteredChannels, ht, hne, baseChannels, List.filter, h]
    obtain ⟨h1, h2, h3, h4, h5, h6, h7, h8, h9⟩ := generate_filtered_eqs ds p rp rc _ hF hH
    exact ⟨_, h1, h2, h3, h4, h5, h6, h7, h8, h9⟩

/-- C3 witness: filtering the one-row scenario by `"referral"` leaves a single
channel entry whose session count is the report's (recomputed) total. -/
theorem claim_C3_witness :
    (generateRealisticData oneRowData referralParams (fun _ => 0) (fun _ => 0)).channels.length
      = 1 ∧
    (generateRealisticData oneRowData referralParams (fun _ => 0) (fun _ => 0)).sessions
      = ((generateRealisticData oneRowData referralParams (fun _ => 0)
          (fun _ => 0)).channels.map ChannelEntry.sessions).sum := by
  obtain ⟨ce, hch, hse, -⟩ :=
    claim_C3 oneRowData referralParams (fun _ => 0) (fun _ => 0) "referral" rfl (by decide)
  rw [hch, hse]
  simp

/-- C4 counterexample: the empty string is a supplied `traffic_source_type`
that matches none of the four channel types, yet (being falsy in JavaScript)
it skips the filter entirely and the returned channel list still has all four
entries, contradicting the claim that it would be empty. -/
theorem claim_C4_counterexample :
    (jsToLower "" ∈ (["organic", "direct", "referral", "social"] : List String) → False) ∧
    (generateRealisticData oneRowData
        { start_date := none, end_date := none, comparison_start_date := none,
          comparison_end_date := none, traffic_source_type := some "" }
        (fun _ => 0) (fun _ => 0)).channels.length = 4 := by
  constructor
  · decide
  · simp [generateRealisticData, filterActive, filteredChannels, baseChannels,
      List.enum, List.enumFrom]

/-- C4 (amended): a supplied NON-EMPTY traffic-source type matching none of
the four channel types empties the channel list while every top-level
aggregate keeps exactly the value of the unfiltered report. -/
theorem claim_C4 (ds : List Row) (p : GaDataParams) (rp rc : ℕ → ℚ) (t : String)
    (ht : p.traffic_source_type = some t) (hne : t ≠ "")
    (hmem : jsToLower t ∉ (["organic", "direct", "referral", "social"] : List String)) :
    (generateRealisticData ds p rp rc).channels = [] ∧
    (generateRealisticData ds p rp rc).sessions
      = (generateRealisticData ds
          { start_date := p.start_date, end_date := p.end_date,
            comparison_start_date := p.comparison_start_date,
            comparison_end_date := p.comparison_end_date,
            traffic_source_type := none } rp rc).sessions ∧
    (generateRealisticData ds p rp rc).users
      = (generateRealisticData ds
          { start_date := p.start_date, end_date := p.end_date,
            comparison_start_date := p.comparison_start_date,
            comparison_end_date := p.comparison_end_date,
            traffic_source_type := none } rp rc).users ∧
    (generateRealisticData ds p rp rc).keyEvents
      = (generateRealisticData ds
          { start_date := p.start_date, end_date := p.end_date,
            comparison_start_date := p.comparison_start_date,
            comparison_end_date := p.comparison_end_date,
            traffic_source_type := none } rp rc).keyEvents ∧
    (generateRealisticData ds p rp rc).sessionKeyEventRate
      = (generateRealisticData ds
          { start_date := p.start_date, end_date := p.end_date,
            comparison_start_date := p.comparison_start_date,
            comparison_end_date := p.comparison_end_date,
            traffic_source_type := none } rp rc).sessionKeyEventRate ∧
    (generateRealisticData ds p rp rc).prevSessions
      = (generateRealisticData ds
          { start_date := p.start_date, end_date := p.end_date,
            comparison_start_date := p.comparison_start_date,
            comparison_end_date := p.comparison_end_date,
            traffic_source_type := none } rp rc).prevSessions ∧
    (generateRealisticData ds p rp rc).prevUsers
      = (generateRealisticData ds
          { start_date := p.start_date, end_date := p.end_date,
            comparison_start_date := p.comparison_start_date,
            comparison_end_date := p.comparison_end_date,
            traffic_source_type := none } rp rc).prevUsers ∧
    (generateRealisticData ds p rp rc).prevKeyEvents
      = (generateRealisticData ds
          { start_date := p.start_date, end_date := p.end_date,
            comparison_start_date := p.comparison_start_date,
            comparison_end_date := p.comparison_end_date,
            traffic_source_type := none } rp rc).prevKeyEvents ∧
    (generateRealisticData ds p rp rc).prevSessionKeyEventRate
      = (generateRealisticData ds
          { start_date := p.start_date, end_date := p.end_date,
            comparison_start_date := p.comparison_start_date,
            comparison_end_date := p.comparison_end_date,
            traffic_source_type := none } rp rc).prevSessionKeyEventRate := by
  have hF : filterActive p = true := by simp [filterActive, ht, hne]
  have h1 : ("organic" == jsToLower t) = false := by
    rw [beq_eq_false_iff_ne]
    intro he
    exact hmem (by rw [← he]; decide)
  have h2 : ("direct" == jsToLower t) = false := by
    rw [beq_eq_false_iff_ne]
    intro he
    exact hmem (by rw [← he]; decide)
  have h3 : ("referral" == jsToLower t) = false := by
    rw [beq_eq_false_iff_ne]
    intro he
    exact hmem (by rw [← he]; decide)
  have h4 : ("social" == jsToLower t) = false := by
    rw [beq_eq_false_iff_ne]
    intro he
    exact hmem (by rw [← he]; decide)
  have hH : filteredChannels p (baseChannels (baseAggregates ds p).sessions) = [] := by
    simp [filteredChannels, ht, hne, baseChannels, List.filter, h1, h2, h3, h4]
  have hstrip : baseAggregates ds
      { start_date := p.start_date, end_date := p.end_date,
        comparison_start_date := p.comparison_start_date,
        comparison_end_date := p.comparison_end_date,
        traffic_source_type := none } = baseAggregates ds p := rfl
  have hFn : filterActive
      { start_date := p.start_date, end_date := p.end_date,
        comparison_start_date := p.comparison_start_date,
        comparison_end_date := p.comparison_end_date,
        traffic_source_type := none } = false := rfl
  refine ⟨?_, ?_, ?_, ?_, ?_, ?_, ?_, ?_, ?_⟩ <;>
    simp [generateRealisticData, hF, hH, hFn, hstrip]

/-- C4 witness: filtering the one-row scenario by the unknown non-empty type
`"email"` empties the channel list and keeps the unfiltered totals. -/
theorem claim_C4_witness :
    (generateRealisticData oneRowData
        { start_date := none, end_date := none, comparison_start_date := none,
          comparison_end_date := none, traffic_source_type := some "email" }
        (fun _ => 0) (fun _ => 0)).channels = [] ∧
    (generateRealisticData oneRowData
        { start_date := none, end_date := none, comparison_start_date := none,
          comparison_end_date := none, traffic_source_type := some "email" }
        (fun _ => 0) (fun _ => 0)).sessions
      = (generateRealisticData oneRowData
          { start_date := none, end_date := none, comparison_start_date := none,
            comparison_end_date := none, traffic_source_type := none }
          (fun _ => 0) (fun _ => 0)).sessions := by
  have h := claim_C4 oneRowData
    { start_date := none, end_date := none, comparison_start_date := none,
      comparison_end_date := none, traffic_source_type := some "email" }
    (fun _ => 0) (fun _ => 0) "email" rfl (by decide) (by decide)
  exact ⟨h.1, h.2.1⟩

/-- Bounds for the unguarded rate: when defined it lies in [0, 100] provided
`0 ≤ keyEvents ≤ sessions`. -/
lemma skr_bounds {ke s : ℤ} (hs : 0 ≤ s) (hke0 : 0 ≤ ke) (hkes : ke ≤ s) :
    ∀ x, jsDivRate ke s = some x → 0 ≤ x ∧ x ≤ 100 := by
  intro x hx
  unfold jsDivRate at hx
  by_cases h : s = 0
  · simp [h] at hx
  · simp only [h, if_false] at hx
    obtain rfl : 100 * ((ke : ℚ) / (s : ℚ)) = x := by simpa using hx
    have hs' : (0 : ℚ) < (s : ℚ) := by
      have h0 : (0 : ℚ) ≤ (s : ℚ) := by exact_mod_cast hs
      have hne : (s : ℚ) ≠ 0 := Int.cast_ne_zero.mpr h
      exact lt_of_le_of_ne h0 (Ne.symm hne)
    constructor
    · have := div_nonneg (show (0 : ℚ) ≤ (ke : ℚ) by exact_mod_cast hke0) (le_of_lt hs')
      linarith
    · have hdiv : (ke : ℚ) / (s : ℚ) ≤ 1 := by
        rw [div_le_one hs']
        exact_mod_cast hkes
      linarith

/-- Every channel of `filteredChannels` comes from the unfiltered list. -/
lemma filteredChannels_subset (p : GaDataParams) (cs : List ChannelData) :
    ∀ c ∈ filteredChannels p cs, c ∈ cs := by
  intro c hc
  unfold filteredChannels at hc
  cases h : p.traffic_source_type with
  | none => rw [h] at hc; exact hc
  | some t =>
    rw [h] at hc
    cases he : t != "" with
    | true =>
      simp only [he, if_true] at hc
      exact List.mem_of_mem_filter hc
    | false =>
      simp only [he, Bool.false_eq_true, if_false] at hc
      exact hc

/-- Every base channel's session count is non-negative when the total is. -/
lemma mem_baseChannels_nonneg {s : ℤ} (hs : 0 ≤ s) :
    ∀ c ∈ baseChannels s, 0 ≤ c.sessions := by
  have hsq : (0 : ℚ) ≤ (s : ℚ) := by exact_mod_cast hs
  intro c hc
  simp only [baseChannels, List.mem_cons, List.not_mem_nil, or_false] at hc
  rcases hc with rfl | rfl | rfl | rfl <;> exact round_nonneg_q (by nlinarith)

lemma base_sessions_nonneg (ds : List Row) (p : GaDataParams)
    (hV : ∀ row ∈ ds, 0 ≤ getNum row "Views") : 0 ≤ (baseAggregates ds p).sessions := by
  refine round_nonneg_q (mul_nonneg (List.sum_nonneg ?_) (dateFactor_nonneg p))
  intro x hx
  obtain ⟨row, hrow, rfl⟩ := List.mem_map.mp hx
  exact hV row hrow

lemma base_users_nonneg (ds : List Row) (p : GaDataParams)
    (hU : ∀ row ∈ ds, 0 ≤ getNum row "Users") : 0 ≤ (baseAggregates ds p).users := by
  refine round_nonneg_q (mul_nonneg (List.sum_nonneg ?_) (dateFactor_nonneg p))
  intro x hx
  obtain ⟨row, hrow, rfl⟩ := List.mem_map.mp hx
  exact hU row hrow

lemma base_keyEvents_eq (ds : List Row) (p : GaDataParams) :
    (baseAggregates ds p).keyEvents
      = round (((baseAggregates ds p).sessions : ℚ) * 0.05) := rfl

lemma base_prevSessions_eq (ds : List Row) (p : GaDataParams) :
    (baseAggregates ds p).prevSessions
      = round (((baseAggregates ds p).sessions : ℚ) * comparisonAdjustmentFactor p) := rfl

lemma base_prevUsers_eq (ds : List Row) (p : GaDataParams) :
    (baseAggregates ds p).prevUsers
      = round (((baseAggregates ds p).users : ℚ) * (comparisonAdjustmentFactor p + 0.02)) := rfl

lemma base_prevKeyEvents_eq (ds : List Row) (p : GaDataParams) :
    (baseAggregates ds p).prevKeyEvents
      = round (((baseAggregates ds p).keyEvents : ℚ) * comparisonAdjustmentFactor p) := rfl

lemma base_skr_eq (ds : List Row) (p : GaDataParams) :
    (baseAggregates ds p).sessionKeyEventRate
      = jsDivRate (baseAggregates ds p).keyEvents (baseAggregates ds p).sessions := rfl

lemma base_pskr_eq (ds : List Row) (p : GaDataParams) :
    (baseAggregates ds p).prevSessionKeyEventRate
      = ((baseAggregates ds p).sessionKeyEventRate).map (fun x => x - 0.5) := rfl

/-- The non-negativity/bound bundle for the unfiltered aggregates. -/
lemma base_bounds (ds : List Row) (p : GaDataParams)
    (hV : ∀ row ∈ ds, 0 ≤ getNum row "Views")
    (hU : ∀ row ∈ ds, 0 ≤ getNum row "Users") :
    0 ≤ (baseAggregates ds p).sessions ∧
    0 ≤ (baseAggregates ds p).users ∧
    0 ≤ (baseAggregates ds p).keyEvents ∧
    0 ≤ (baseAggregates ds p).prevSessions ∧
    0 ≤ (baseAggregates ds p).prevUsers ∧
    0 ≤ (baseAggregates ds p).prevKeyEvents ∧
    (∀ x, (baseAggregates ds p).sessionKeyEventRate = some x → 0 ≤ x ∧ x ≤ 100) ∧
    (∀ x, (baseAggregates ds p).sessionKeyEventRate = some x →
      (baseAggregates ds p).prevSessionKeyEventRate = some (x - 0.5)) := by
  have hcf := compFactor_ge p
  have hs0 := base_sessions_nonneg ds p hV
  have hu0 := base_users_nonneg ds p hU
  have hsq : (0 : ℚ) ≤ ((baseAggregates ds p).sessions : ℚ) := by exact_mod_cast hs0
  have huq : (0 : ℚ) ≤ ((baseAggregates ds p).users : ℚ) := by exact_mod_cast hu0
  have hke0 : 0 ≤ (baseAggregates ds p).keyEvents := by
    rw [base_keyEvents_eq]
    exact round_nonneg_q (by nlinarith)
  have hkeq : (0 : ℚ) ≤ ((baseAggregates ds p).keyEvents : ℚ) := by exact_mod_cast hke0
  have hkes : (baseAggregates ds p).keyEvents ≤ (baseAggregates ds p).sessions := by
    rw [base_keyEvents_eq]
    exact round_frac_le hs0 (by norm_num)
  refine ⟨hs0, hu0, hke0, ?_, ?_, ?_, ?_, ?_⟩
  · rw [base_prevSessions_eq]
    exact round_nonneg_q (mul_nonneg hsq (by linarith))
  · rw [base_prevUsers_eq]
    exact round_nonneg_q (mul_nonneg huq (by linarith))
  · rw [base_prevKeyEvents_eq]
    exact round_nonneg_q (mul_nonneg hkeq (by linarith))
  · rw [base_skr_eq]
    exact skr_bounds hs0 hke0 hkes
  · intro x hx
    rw [base_pskr_eq, hx]
    rfl

/-- The non-negativity/bound bundle for the filter-recomputed aggregates. -/
lemma recompute_bounds (s : ℤ) (hs : 0 ≤ s) (cf : ℚ) (hcf : 0.85 ≤ cf) :
    0 ≤ (recomputeAggregates s cf).sessions ∧
    0 ≤ (recomputeAggregates s cf).users ∧
    0 ≤ (recomputeAggregates s cf).keyEvents ∧
    0 ≤ (recomputeAggregates s cf).prevSessions ∧
    0 ≤ (recomputeAggregates s cf).prevUsers ∧
    0 ≤ (recomputeAggregates s cf).prevKeyEvents ∧
    (∀ x, (recomputeAggregates s cf).sessionKeyEventRate = some x → 0 ≤ x ∧ x ≤ 100) ∧
    (∀ x, (recomputeAggregates s cf).sessionKeyEventRate = some x →
      (recomputeAggregates s cf).prevSessionKeyEventRate = some (x - 0.5)) := by
  have hsq : (0 : ℚ) ≤ (s : ℚ) := by exact_mod_cast hs
  have hu0 : 0 ≤ round ((s : ℚ) * 0.7) := round_nonneg_q (by nlinarith)
  have huq : (0 : ℚ) ≤ ((round ((s : ℚ) * 0.7) : ℤ) : ℚ) := by exact_mod_cast hu0
  have hke0 : 0 ≤ round ((s : ℚ) * 0.05) := round_nonneg_q (by nlinarith)
  have hkeq : (0 : ℚ) ≤ ((round ((s : ℚ) * 0.05) : ℤ) : ℚ) := by exact_mod_cast hke0
  have hkes : round ((s : ℚ) * 0.05) ≤ s := round_frac_le hs (by norm_num)
  simp only [recomputeAggregates]
  refine ⟨hs, hu0, hke0, ?_, ?_, ?_, ?_, ?_⟩
  · exact round_nonneg_q (mul_nonneg hsq (by linarith))
  · exact round_nonneg_q (mul_nonneg huq (by linarith))
  · exact round_nonneg_q (mul_nonneg hkeq (by linarith))
  · exact skr_bounds hs hke0 hkes
  · intro x hx
    rw [hx]
    rfl

/-- The row comparator of `sortRows` is transitive. -/
lemma viewsLe_trans (a b c : Row)
    (hab : decide (getNum b "Views" ≤ getNum a "Views") = true)
    (hbc : decide (getNum c "Views" ≤ getNum b "Views") = true) :
    decide (getNum c "Views" ≤ getNum a "Views") = true := by
  simp only [decide_eq_true_eq] at hab hbc ⊢
  exact le_trans hbc hab

/-- The row comparator of `sortRows` is total. -/
lemma viewsLe_total (a b : Row) :
    (decide (getNum b "Views" ≤ getNum a "Views")
      || decide (getNum a "Views" ≤ getNum b "Views")) = true := by
  rcases le_total (getNum b "Views") (getNum a "Views") with h | h <;> simp [h]

/-- C7: the report's page list enumerates the dataset sorted descending by
resolved `"Views"` value, the sorted order is non-increasing in that value,
and rows with equal resolved view counts keep their original relative order
(witnessed by every equal-views fibre of the sort agreeing with the input). -/
theorem claim_C7 (ds : List Row) (p : GaDataParams) (rp rc : ℕ → ℚ) :
    (generateRealisticData ds p rp rc).pages
      = (sortRows ds).enum.map
          (fun q => mkPageEntry (dateAdjustmentFactor p) (comparisonAdjustmentFactor p)
            rp q.1 q.2) ∧
    (sortRows ds).Pairwise (fun a b => getNum b "Views" ≤ getNum a "Views") ∧
    (∀ v : ℚ, (sortRows ds).filter (fun r => decide (getNum r "Views" = v))
        = ds.filter (fun r => decide (getNum r "Views" = v))) := by
  refine ⟨rfl, ?_, ?_⟩
  · have hs := @List.sorted_mergeSort Row
      (fun a b => decide (getNum b "Views" ≤ getNum a "Views")) viewsLe_trans viewsLe_total ds
    exact hs.imp (fun h => by simpa using h)
  · intro v
    have hsub : List.Sublist (ds.filter (fun r => decide (getNum r "Views" = v))) ds :=
      List.filter_sublist ds
    have hpw : (ds.filter (fun r => decide (getNum r "Views" = v))).Pairwise
        (fun a b => decide (getNum b "Views" ≤ getNum a "Views") = true) := by
      refine List.pairwise_of_forall_mem_list ?_
      intro a ha b hb
      have hav : getNum a "Views" = v := by simpa using (List.mem_filter.mp ha).2
      have hbv : getNum b "Views" = v := by simpa using (List.mem_filter.mp hb).2
      simp [hav, hbv]
    have h1 : List.Sublist (ds.filter (fun r => decide (getNum r "Views" = v)))
        (List.mergeSort ds (fun a b => decide (getNum b "Views" ≤ getNum a "Views"))) :=
      List.sublist_mergeSort viewsLe_trans viewsLe_total hpw hsub
    have h2' := h1.filter (fun r => decide (getNum r "Views" = v))
    rw [List.filter_eq_self.mpr (fun a ha => (List.mem_filter.mp ha).2)] at h2'
    have hperm := (List.mergeSort_perm ds
      (fun a b => decide (getNum b "Views" ≤ getNum a "Views"))).filter
      (fun r => decide (getNum r "Views" = v))
    exact (h2'.eq_of_length hperm.length_eq.symm).symm

/-- C8: without a traffic-source filter the report has exactly the four fixed
channels, their sessions are the rounded 0.4/0.25/0.2/0.15 shares of the
top-level sessions, and the shares sum to the total up to rounding (within 2). -/
theorem claim_C8 (ds : List Row) (p : GaDataParams) (rp rc : ℕ → ℚ)
    (h : p.traffic_source_type = none) :
    (generateRealisticData ds p rp rc).channels.map ChannelEntry.name
      = ["Organic Search", "Direct", "Referral", "Social"] ∧
    (generateRealisticData ds p rp rc).channels.map ChannelEntry.sessions
      = [round (((generateRealisticData ds p rp rc).sessions : ℚ) * 0.4),
         round (((generateRealisticData ds p rp rc).sessions : ℚ) * 0.25),
         round (((generateRealisticData ds p rp rc).sessions : ℚ) * 0.2),
         round (((generateRealisticData ds p rp rc).sessions : ℚ) * 0.15)] ∧
    |((((generateRealisticData ds p rp rc).channels.map ChannelEntry.sessions).sum : ℚ)
        - ((generateRealisticData ds p rp rc).sessions : ℚ))| ≤ 2 := by
  have hF : filterActive p = false := by simp [filterActive, h]
  refine ⟨?_, ?_, ?_⟩ <;>
    simp [generateRealisticData, hF, filteredChannels, h, baseChannels, List.enum,
      List.enumFrom]
  have hc := channel_sum_close (baseAggregates ds p).sessions
  convert hc using 2
  push_cast
  ring

/-- C10: the engagement-rate fields are not recomputed by a matching
traffic-source filter: they equal the unfiltered report's values, and in the
referral-filtered one-row scenario the reported engagement rate (200) differs
from 100·sessions/users computed from the recomputed fields (100·20/14). -/
theorem claim_C10 :
    (∀ (ds : List Row) (p : GaDataParams) (rp rc : ℕ → ℚ) (t : String),
      p.traffic_source_type = some t →
      jsToLower t ∈ (["organic", "direct", "referral", "social"] : List String) →
      (generateRealisticData ds p rp rc).engagementRate
          = (generateRealisticData ds
              { start_date := p.start_date, end_date := p.end_date,
                comparison_start_date := p.comparison_start_date,
                comparison_end_date := p.comparison_end_date,
                traffic_source_type := none } rp rc).engagementRate ∧
      (generateRealisticData ds p rp rc).prevEngagementRate
          = (generateRealisticData ds
              { start_date := p.start_date, end_date := p.end_date,
                comparison_start_date := p.comparison_start_date,
                comparison_end_date := p.comparison_end_date,
                traffic_source_type := none } rp rc).prevEngagementRate) ∧
    ((generateRealisticData oneRowData referralParams (fun _ => 0) (fun _ => 0)).engagementRate
        = 200 ∧
     (generateRealisticData oneRowData referralParams (fun _ => 0) (fun _ => 0)).sessions = 20 ∧
     (generateRealisticData oneRowData referralParams (fun _ => 0) (fun _ => 0)).users = 14 ∧
     (generateRealisticData oneRowData referralParams (fun _ => 0) (fun _ => 0)).engagementRate
        ≠ 100 * (((generateRealisticData oneRowData referralParams
              (fun _ => 0) (fun _ => 0)).sessions : ℚ)
            / ((generateRealisticData oneRowData referralParams
              (fun _ => 0) (fun _ => 0)).users : ℚ))) := by
  constructor
  · intro ds p rp rc t ht hmem
    exact ⟨rfl, rfl⟩
  · have h100 : round ((100 : ℚ) * 1) = 100 := round_eval (by norm_num) (by norm_num)
    have h50 : round ((50 : ℚ) * 1) = 50 := round_eval (by norm_num) (by norm_num)
    have h40 : round ((100 : ℚ) * 0.4) = 40 := round_eval (by norm_num) (by norm_num)
    have h25 : round ((100 : ℚ) * 0.25) = 25 := round_eval (by norm_num) (by norm_num)
    have h20 : round ((100 : ℚ) * 0.2) = 20 := round_eval (by norm_num) (by norm_num)
    have h15 : round ((100 : ℚ) * 0.15) = 15 := round_eval (by norm_num) (by norm_num)
    have h14 : round ((20 : ℚ) * 0.7) = 14 := round_eval (by norm_num) (by norm_num)
    refine ⟨?_, ?_, ?_, ?_⟩ <;>
      simp [generateRealisticData, baseAggregates, dateAdjustmentFactor,
        comparisonAdjustmentFactor, referralParams, oneRowData, filterActive,
        filteredChannels, baseChannels, recomputeAggregates, jsToLower,
        getNum_oneRow_Views, getNum_oneRow_Users, h100, h50, h40, h25, h20, h15, h14] <;>
      norm_num

/-- C10 witness: in the one-row referral-filtered scenario the engagement rate
equals the unfiltered scenario's engagement rate. -/
theorem claim_C10_witness :
    (generateRealisticData oneRowData referralParams (fun _ => 0) (fun _ => 0)).engagementRate
      = (generateRealisticData oneRowData emptyParams (fun _ => 0) (fun _ => 0)).engagementRate := by
  exact (claim_C10.1 oneRowData referralParams (fun _ => 0) (fun _ => 0) "referral"
    rfl (by decide)).1

/-- C8 witness: the one-row scenario without parameters has the four fixed
channels with the rounded shares of 100 sessions. -/
theorem claim_C8_witness :
    (generateRealisticData oneRowData emptyParams (fun _ => 0) (fun _ => 0)).channels.map
        ChannelEntry.name = ["Organic Search", "Direct", "Referral", "Social"] ∧
    |((((generateRealisticData oneRowData emptyParams (fun _ => 0) (fun _ => 0)).channels.map
          ChannelEntry.sessions).sum : ℚ)
        - (((generateRealisticData oneRowData emptyParams (fun _ => 0) (fun _ => 0)).sessions : ℚ)))|
      ≤ 2 := by
  exact ⟨(claim_C8 oneRowData emptyParams (fun _ => 0) (fun _ => 0) rfl).1,
    (claim_C8 oneRowData emptyParams (fun _ => 0) (fun _ => 0) rfl).2.2⟩

/-- C2 counterexample: already in the spec's own one-row scenario (a dataset
with non-negative values) the engagement rate is 200, so it is not a
percentage in [0, 100] and the claimed invariant fails as stated. -/
theorem claim_C2_counterexample :
    ¬ ((generateRealisticData oneRowData emptyParams (fun _ => 0) (fun _ => 0)).engagementRate
        ≤ 100) := by
  have h100 : round ((100 : ℚ) * 1) = 100 := round_eval (by norm_num) (by norm_num)
  have h50 : round ((50 : ℚ) * 1) = 50 := round_eval (by norm_num) (by norm_num)
  have he : (generateRealisticData oneRowData emptyParams
      (fun _ => 0) (fun _ => 0)).engagementRate = 200 := by
    simp [generateRealisticData, baseAggregates, dateAdjustmentFactor,
      comparisonAdjustmentFactor, emptyParams, oneRowData, getNum_oneRow_Views,
      getNum_oneRow_Users, h100, h50]
    norm_num
  rw [he]
  norm_num

/-- C2 (amended): for datasets with non-negative resolved Views/Users values
and random draws in [0, 1), all totals (current and previous) are
non-negative; the session-key-event rate, whenever finite, is in [0, 100];
both engagement rates are non-negative (clamped at 0 for the previous one)
but NOT bounded above by 100; the previous session-key-event rate is exactly
the unclamped rate minus 0.5; and every randomised page/channel key-event
rate is in [0, 100]. -/
theorem claim_C2 (ds : List Row) (p : GaDataParams) (rp rc : ℕ → ℚ)
    (hds : ∀ row ∈ ds, 0 ≤ getNum row "Views" ∧ 0 ≤ getNum row "Users")
    (hrp : ∀ n, 0 ≤ rp n ∧ rp n < 1) (hrc : ∀ n, 0 ≤ rc n ∧ rc n < 1) :
    0 ≤ (generateRealisticData ds p rp rc).sessions ∧
    0 ≤ (generateRealisticData ds p rp rc).users ∧
    0 ≤ (generateRealisticData ds p rp rc).keyEvents ∧
    0 ≤ (generateRealisticData ds p rp rc).prevSessions ∧
    0 ≤ (generateRealisticData ds p rp rc).prevUsers ∧
    0 ≤ (generateRealisticData ds p rp rc).prevKeyEvents ∧
    0 ≤ (generateRealisticData ds p rp rc).engagementRate ∧
    0 ≤ (generateRealisticData ds p rp rc).prevEngagementRate ∧
    (∀ x, (generateRealisticData ds p rp rc).sessionKeyEventRate = some x →
      0 ≤ x ∧ x ≤ 100) ∧
    (∀ x, (generateRealisticData ds p rp rc).sessionKeyEventRate = some x →
      (generateRealisticData ds p rp rc).prevSessionKeyEventRate = some (x - 0.5)) ∧
    (∀ pg ∈ (generateRealisticData ds p rp rc).pages,
      0 ≤ pg.keyEventRate ∧ pg.keyEventRate ≤ 100
        ∧ 0 ≤ pg.prevKeyEventRate ∧ pg.prevKeyEventRate ≤ 100) ∧
    (∀ ch ∈ (generateRealisticData ds p rp rc).channels,
      0 ≤ ch.keyEventRate ∧ ch.keyEventRate ≤ 100
        ∧ 0 ≤ ch.prevKeyEventRate ∧ ch.prevKeyEventRate ≤ 100) := by
  have hV : ∀ row ∈ ds, 0 ≤ getNum row "Views" := fun row h => (hds row h).1
  have hU : ∀ row ∈ ds, 0 ≤ getNum row "Users" := fun row h => (hds row h).2
  have hb := base_bounds ds p hV hU
  have hcf := compFactor_ge p
  have hER : 0 ≤ (generateRealisticData ds p rp rc).engagementRate := by
    simp only [generateRealisticData]
    by_cases h : (baseAggregates ds p).users = 0
    · simp [h]
    · have hsq : (0 : ℚ) ≤ ((baseAggregates ds p).sessions : ℚ) := by exact_mod_cast hb.1
      have huq : (0 : ℚ) ≤ ((baseAggregates ds p).users : ℚ) := by exact_mod_cast hb.2.1
      simp only [h, if_false]
      have := div_nonneg hsq huq
      linarith
  have hPER : 0 ≤ (generateRealisticData ds p rp rc).prevEngagementRate := by
    simp only [generateRealisticData]
    exact le_max_right _ _
  have hPg : ∀ pg ∈ (generateRealisticData ds p rp rc).pages,
      0 ≤ pg.keyEventRate ∧ pg.keyEventRate ≤ 100
        ∧ 0 ≤ pg.prevKeyEventRate ∧ pg.prevKeyEventRate ≤ 100 := by
    intro pg hpg
    simp only [generateRealisticData] at hpg
    obtain ⟨q, hmem, rfl⟩ := List.mem_map.mp hpg
    obtain ⟨ha0, ha1⟩ := hrp (2 * q.1)
    obtain ⟨hb0, hb1⟩ := hrp (2 * q.1 + 1)
    simp only [mkPageEntry]
    refine ⟨by nlinarith, by nlinarith, by nlinarith, by nlinarith⟩
  have hCh : ∀ ch ∈ (generateRealisticData ds p rp rc).channels,
      0 ≤ ch.keyEventRate ∧ ch.keyEventRate ≤ 100
        ∧ 0 ≤ ch.prevKeyEventRate ∧ ch.prevKeyEventRate ≤ 100 := by
    intro ch hch
    simp only [generateRealisticData] at hch
    obtain ⟨q, hmem, rfl⟩ := List.mem_map.mp hch
    obtain ⟨ha0, ha1⟩ := hrc (2 * q.1)
    obtain ⟨hb0, hb1⟩ := hrc (2 * q.1 + 1)
    dsimp only
    refine ⟨by nlinarith, by nlinarith, by nlinarith, by nlinarith⟩
  have hAgg :
      0 ≤ (generateRealisticData ds p rp rc).sessions ∧
      0 ≤ (generateRealisticData ds p rp rc).users ∧
      0 ≤ (generateRealisticData ds p rp rc).keyEvents ∧
      0 ≤ (generateRealisticData ds p rp rc).prevSessions ∧
      0 ≤ (generateRealisticData ds p rp rc).prevUsers ∧
      0 ≤ (generateRealisticData ds p rp rc).prevKeyEvents ∧
      (∀ x, (generateRealisticData ds p rp rc).sessionKeyEventRate = some x →
        0 ≤ x ∧ x ≤ 100) ∧
      (∀ x, (generateRealisticData ds p rp rc).sessionKeyEventRate = some x →
        (generateRealisticData ds p rp rc).prevSessionKeyEventRate = some (x - 0.5)) := by
    cases hF : filterActive p with
    | false =>
      simp only [generateRealisticData, hF, Bool.false_eq_true, if_false]
      exact hb
    | true =>
      cases hH : (filteredChannels p (baseChannels (baseAggregates ds p).sessions)).head? with
      | none =>
        simp only [generateRealisticData, hF, if_true, hH]
        exact hb
      | some c =>
        have hcmem : c ∈ baseChannels (baseAggregates ds p).sessions := by
          refine filteredChannels_subset p _ c ?_
          cases hl : filteredChannels p (baseChannels (baseAggregates ds p).sessions) with
          | nil => rw [hl] at hH; simp at hH
          | cons a as =>
            rw [hl] at hH
            simp only [List.head?_cons, Option.some.injEq] at hH
            rw [← hH]
            exact List.mem_cons_self a as
        have hcs : 0 ≤ c.sessions := mem_baseChannels_nonneg hb.1 c hcmem
        simp only [generateRealisticData, hF, if_true, hH]
        exact recompute_bounds c.sessions hcs (comparisonAdjustmentFactor p) hcf
  exact ⟨hAgg.1, hAgg.2.1, hAgg.2.2.1, hAgg.2.2.2.1, hAgg.2.2.2.2.1, hAgg.2.2.2.2.2.1,
    hER, hPER, hAgg.2.2.2.2.2.2.1, hAgg.2.2.2.2.2.2.2, hPg, hCh⟩

/-- C2 witness: the amended invariant holds on the one-row scenario with the
constant-zero random streams. -/
theorem claim_C2_witness :
    0 ≤ (generateRealisticData oneRowData emptyParams (fun _ => 0) (fun _ => 0)).sessions ∧
    0 ≤ (generateRealisticData oneRowData emptyParams
        (fun _ => 0) (fun _ => 0)).engagementRate := by
  have h := claim_C2 oneRowData emptyParams (fun _ => 0) (fun _ => 0)
    (by decide) (fun n => ⟨le_refl 0, by norm_num⟩) (fun n => ⟨le_refl 0, by norm_num⟩)
  exact ⟨h.1, h.2.2.2.2.2.2.1⟩

end GaMock
